import Mathlib

/-!
# Verification of the `type_forge` validation and conversion core

A shallow embedding, in Lean, of the validation/conversion core of the
`type_forge` Python package:

* the violation / result data model (`core/base.py`, `core/exceptions.py`);
* the primitive coercers (`validators/basic.py`, `typing/conversion.py`);
* the conversion-result monad (`typing/conversion.py`);
* the type-relationship analyzer (`typing/analysis.py`);
* the recursive schema validator (`validators/factory.py`,
  `forge/type_forge.py`).

The embedded value universe covers the Python values the core manipulates:
`None`, `bool`, `int`, `float`, `str`, `list`, `tuple`, `set` and `dict`
(with string keys, the only key shape the schema validator uses).  Floats
are kept exact: a finite float is carried as a rational number, plus the
IEEE specials `inf`, `-inf` and `nan`; no claim below depends on binary
rounding, only on parse success and zero/non-zero truthiness.  String case
mapping and whitespace are modelled at ASCII fidelity, which covers every
token the coercion tables use.
-/

namespace TypeForge

/-- The Python type descriptors usable as schema leaves in the embedded
universe (the types `validate_type` / `_try_convert` dispatch on).  `bytes`,
`frozenset` and `complex` carry no values in the embedding and are omitted. -/
inductive PyType
  | tNone
  | tBool
  | tInt
  | tFloat
  | tStr
  | tList
  | tTuple
  | tSet
  | tDict
deriving DecidableEq, BEq, Repr, Fintype

/-- A Python float: a finite value held exactly as a rational, or one of the
IEEE specials.  `-0.0` collapses onto `0`. -/
inductive PyFloat
  | finite (q : ℚ)
  | inf
  | neginf
  | nan
deriving DecidableEq, Repr

/-- The embedded Python value universe.  Dictionary keys are strings: the
schema validator only ever indexes dictionaries by string keys. -/
inductive Value
  | vnone
  | vbool (b : Bool)
  | vint (n : ℤ)
  | vfloat (f : PyFloat)
  | vstr (s : String)
  | vlist (xs : List Value)
  | vtuple (xs : List Value)
  | vset (xs : List Value)
  | vdict (kvs : List (String × Value))

/-- Python `value is None`. -/
def Value.isNone : Value → Bool
  | .vnone => true
  | _ => false

/-- Whether the value is a `bool` instance. -/
def Value.isBool : Value → Bool
  | .vbool _ => true
  | _ => false

/-- Python `isinstance` on the embedded universe.  `bool` is a subclass of
`int`, exactly as in CPython. -/
def isInstance : Value → PyType → Bool
  | .vnone, .tNone => true
  | .vbool _, .tBool => true
  | .vbool _, .tInt => true
  | .vint _, .tInt => true
  | .vfloat _, .tFloat => true
  | .vstr _, .tStr => true
  | .vlist _, .tList => true
  | .vtuple _, .tTuple => true
  | .vset _, .tSet => true
  | .vdict _, .tDict => true
  | _, _ => false

/-- `t.__name__` for the embedded type descriptors. -/
def PyType.name : PyType → String
  | .tNone => "NoneType"
  | .tBool => "bool"
  | .tInt => "int"
  | .tFloat => "float"
  | .tStr => "str"
  | .tList => "list"
  | .tTuple => "tuple"
  | .tSet => "set"
  | .tDict => "dict"

/-- `type(value).__name__`. -/
def Value.typeName : Value → String
  | .vnone => "NoneType"
  | .vbool _ => "bool"
  | .vint _ => "int"
  | .vfloat _ => "float"
  | .vstr _ => "str"
  | .vlist _ => "list"
  | .vtuple _ => "tuple"
  | .vset _ => "set"
  | .vdict _ => "dict"

/-! ## Violation and result model (`core/exceptions.py`, `core/base.py`) -/

/-- `TypeViolationKind`: the closed taxonomy of violation categories. -/
inductive TypeViolationKind
  | wrongType
  | missingKey
  | invalidValue
  | schemaMismatch
  | conversionError
deriving DecidableEq, BEq, Repr

/-- `TypeViolation`: immutable violation record. -/
structure TypeViolation where
  path : String
  expected : String
  found : String
  kind : TypeViolationKind
deriving DecidableEq, Repr

/-- `ValidationResult`: validation status, violations in discovery order, and
the optional converted value.  Python stores the converted value in a field
defaulting to `None`; the embedding carries `Value.vnone` for that default,
which is indistinguishable from an explicit `None` exactly as in Python. -/
structure ValidationResult where
  valid : Bool
  violations : List TypeViolation
  convertedValue : Value

/-- `ValidationResult.merge`: validity is ANDed, the other result's violations
are appended, and the left operand's converted value is preserved. -/
def ValidationResult.merge (r o : ValidationResult) : ValidationResult :=
  { valid := r.valid && o.valid
    violations := r.violations ++ o.violations
    convertedValue := r.convertedValue }

/-! ## String helpers for the primitive coercers

`str.lower` / `str.strip` and the CPython numeric-literal grammar, at ASCII
fidelity. -/

/-- The ASCII whitespace `str.strip` removes. -/
def isPySpace (c : Char) : Bool :=
  c = ' ' || c = '\t' || c = '\n' || c = '\r' || c = '\x0b' || c = '\x0c'

/-- `str.lower` (ASCII case mapping). -/
def pyLower (s : String) : String :=
  String.mk (s.toList.map Char.toLower)

/-- `str.strip()`: drop leading and trailing whitespace. -/
def pyStrip (s : String) : String :=
  String.mk (((s.toList.dropWhile isPySpace).reverse.dropWhile isPySpace).reverse)

def isAsciiDigit (c : Char) : Bool :=
  '0' ≤ c && c ≤ '9'

/-- After a leading digit, every character is a digit or an underscore that is
followed by a digit (CPython rejects trailing and doubled underscores). -/
def underscoresOk : List Char → Bool
  | [] => true
  | ['_'] => false
  | '_' :: '_' :: _ => false
  | '_' :: c :: cs => isAsciiDigit c && underscoresOk (c :: cs)
  | c :: cs => isAsciiDigit c && underscoresOk cs

/-- A non-empty digit group in CPython numeric-literal syntax: digits with
underscores strictly between digits. -/
def validDigitGroup (cs : List Char) : Bool :=
  match cs with
  | [] => false
  | '_' :: _ => false
  | _ => underscoresOk cs

/-- Decimal value of a digit group, skipping underscores. -/
def digitGroupVal (cs : List Char) : ℕ :=
  cs.foldl (fun acc c => if c = '_' then acc else acc * 10 + (c.toNat - '0'.toNat)) 0

/-- `int(s)` on a string: strip whitespace, optional sign, decimal digit
group; anything else raises `ValueError`, modelled as `none`. -/
def parseIntPy (s : String) : Option ℤ :=
  match (pyStrip s).toList with
  | '+' :: rest => if validDigitGroup rest then some (digitGroupVal rest : ℤ) else none
  | '-' :: rest => if validDigitGroup rest then some (-(digitGroupVal rest : ℤ)) else none
  | rest => if validDigitGroup rest then some (digitGroupVal rest : ℤ) else none

/-- Split a character list at every occurrence of a separator. -/
def splitOnChar (sep : Char) : List Char → List (List Char)
  | [] => [[]]
  | c :: cs =>
      let r := splitOnChar sep cs
      if c = sep then [] :: r
      else
        match r with
        | [] => [[c]]
        | g :: gs => (c :: g) :: gs

/-- Exponent part of a float literal: optional sign and a digit group. -/
def parseExp (x : List Char) : Option ℤ :=
  match x with
  | '+' :: r => if validDigitGroup r then some (digitGroupVal r : ℤ) else none
  | '-' :: r => if validDigitGroup r then some (-(digitGroupVal r : ℤ)) else none
  | r => if validDigitGroup r then some (digitGroupVal r : ℤ) else none

/-- Mantissa of a float literal: `digits`, `digits.`, `.digits` or
`digits.digits` (each group with underscore rules; at least one digit). -/
def parseMantissa (m : List Char) : Option ℚ :=
  match splitOnChar '.' m with
  | [ip] =>
      if validDigitGroup ip then some (digitGroupVal ip : ℚ) else none
  | [ip, fp] =>
      if (ip.isEmpty || validDigitGroup ip)
          && (fp.isEmpty || validDigitGroup fp)
          && !(ip.isEmpty && fp.isEmpty) then
        let fd := (fp.filter (fun c => c ≠ '_')).length
        some ((digitGroupVal ip : ℚ) + (digitGroupVal fp : ℚ) / 10 ^ fd)
      else none
  | _ => none

/-- Numeric body of a float literal (sign already removed, already
lowercased): mantissa with optional `e`-exponent. -/
def parseFloatCore (body : List Char) : Option ℚ :=
  match splitOnChar 'e' body with
  | [m] => parseMantissa m
  | [m, x] => do
      let q ← parseMantissa m
      let e ← parseExp x
      some (q * 10 ^ e)
  | _ => none

/-- `float(s)` on a string: strip, lowercase, optional sign, then `inf`,
`infinity`, `nan`, or a decimal literal.  The finite value is kept exact (no
binary rounding); parse success matches CPython on ASCII input. -/
def parseFloatPy (s : String) : Option PyFloat :=
  let t := (pyLower (pyStrip s)).toList
  let signSplit : Bool × List Char :=
    match t with
    | '+' :: r => (false, r)
    | '-' :: r => (true, r)
    | _ => (false, t)
  let neg := signSplit.1
  let body := signSplit.2
  if body = "inf".toList || body = "infinity".toList then
    some (if neg then .neginf else .inf)
  else if body = "nan".toList then some .nan
  else (parseFloatCore body).map (fun q => .finite (if neg then -q else q))

/-- `int(f)` truncation toward zero on a finite float. -/
def ratTrunc (q : ℚ) : ℤ :=
  if 0 ≤ q then q.floor else -((-q).floor)

/-! ## `str()` / `repr()` rendering

Needed because `safe_str_convert` falls back to `str(value)`.  Integers,
booleans, `None` and strings render exactly as CPython; container rendering
follows CPython's shape (brackets, `", "` separators, `repr` of elements);
float formatting and `repr`-quote selection are approximated (single quotes,
basic escapes), which no verified property below depends on. -/

/-- A single-quote character, kept out of string literals. -/
def sq : String :=
  String.mk [Char.ofNat 39]

/-- Escaping of one character inside a `repr`ed string literal. -/
def escapeChar (c : Char) : String :=
  if c = '\\' then "\\\\"
  else if c = Char.ofNat 39 then "\\" ++ sq
  else if c = '\n' then "\\n"
  else if c = '\r' then "\\r"
  else if c = '\t' then "\\t"
  else String.mk [c]

def escapeStr (s : String) : String :=
  String.join (s.toList.map escapeChar)

/-- Rendering of a float by `str()`: specials by name, integral finite floats
with a trailing `.0`, other rationals as `num/den` (approximate). -/
def floatStr : PyFloat → String
  | .inf => "inf"
  | .neginf => "-inf"
  | .nan => "nan"
  | .finite q =>
      if q.den = 1 then toString q.num ++ ".0"
      else toString q.num ++ "/" ++ toString q.den

mutual

/-- Python `repr(value)` on the embedded universe. -/
def pyRepr : Value → String
  | .vnone => "None"
  | .vbool b => if b then "True" else "False"
  | .vint n => toString n
  | .vfloat f => floatStr f
  | .vstr s => sq ++ escapeStr s ++ sq
  | .vlist xs => "[" ++ reprJoin xs ++ "]"
  | .vtuple [x] => "(" ++ pyRepr x ++ ",)"
  | .vtuple xs => "(" ++ reprJoin xs ++ ")"
  | .vset [] => "set()"
  | .vset xs => "\x7b" ++ reprJoin xs ++ "\x7d"
  | .vdict kvs => "\x7b" ++ reprJoinKV kvs ++ "\x7d"

/-- Comma-joined `repr`s of list elements. -/
def reprJoin : List Value → String
  | [] => ""
  | [x] => pyRepr x
  | x :: xs => pyRepr x ++ ", " ++ reprJoin xs

/-- Comma-joined `key: value` entries of a dict `repr`. -/
def reprJoinKV : List (String × Value) → String
  | [] => ""
  | [(k, v)] => sq ++ escapeStr k ++ sq ++ ": " ++ pyRepr v
  | (k, v) :: kvs => sq ++ escapeStr k ++ sq ++ ": " ++ pyRepr v ++ ", " ++ reprJoinKV kvs

end

/-- Python `str(value)`: identity on strings, `repr` otherwise (floats
differ only in the approximation noted above). -/
def pyStr : Value → String
  | .vstr s => s
  | v => pyRepr v

/-! ## Primitive coercers (`validators/basic.py`; the module-level twins in
`typing/conversion.py` are line-for-line identical on the embedded universe —
`conversion.safe_bool_convert` lists `dict` in its length-checked collections
while `basic.py` reaches the same length-based truthiness for `dict` through
the final `bool(value)` fallback, since `dict` defines no `__bool__`). -/

/-- `BasicValidator.safe_int_convert`: bool to 1/0, int identity, finite
float truncation (`int(inf)`/`int(nan)` raise and are caught to `None`),
string parse, everything else `None`. -/
def safeIntConvert : Value → Option ℤ
  | .vnone => none
  | .vbool b => some (if b then 1 else 0)
  | .vint n => some n
  | .vfloat (.finite q) => some (ratTrunc q)
  | .vfloat _ => none
  | .vstr s => parseIntPy s
  | _ => none

def trueTokens : List String :=
  ["true", "yes", "1", "y", "t", "on"]

def falseTokens : List String :=
  ["false", "no", "0", "n", "f", "off"]

/-- Truthiness of a float: zero is falsy, every other value — including
`nan` and the infinities — is truthy. -/
def pyFloatTruthy : PyFloat → Bool
  | .finite q => q != 0
  | _ => true

/-- `BasicValidator.safe_bool_convert`: bool passthrough; numeric truthiness;
strings lowercased and stripped, then the semantic table, then non-emptiness;
lists always true; tuples and sets by length; dicts reach length-based
truthiness through the `bool(value)` fallback. -/
def safeBoolConvert : Value → Bool
  | .vnone => false
  | .vbool b => b
  | .vint n => n != 0
  | .vfloat f => pyFloatTruthy f
  | .vstr s =>
      let t := pyStrip (pyLower s)
      if trueTokens.contains t then true
      else if falseTokens.contains t then false
      else t != ""
  | .vlist _ => true
  | .vtuple xs => !xs.isEmpty
  | .vset xs => !xs.isEmpty
  | .vdict kvs => !kvs.isEmpty

/-- `BasicValidator.safe_float_convert`: bool to 1.0/0.0, int widening,
float identity, string parse, everything else `None`. -/
def safeFloatConvert : Value → Option PyFloat
  | .vnone => none
  | .vbool b => some (.finite (if b then 1 else 0))
  | .vint n => some (.finite (n : ℚ))
  | .vfloat f => some f
  | .vstr s => parseFloatPy s
  | _ => none

/-- `BasicValidator.safe_str_convert`: `None` to the empty string, string
passthrough, otherwise `str(value)` (`bytes`/`Path` carry no values in the
embedded universe). -/
def safeStrConvert : Value → String
  | .vnone => ""
  | .vstr s => s
  | v => pyStr v

/-! ## Constructor-based conversions for container targets

`_try_convert` falls back to `target_type(value)` for non-primitive targets;
the raised `TypeError`/`ValueError` on non-iterable or unhashable input is
caught by the caller and modelled as `none`. -/

/-- Python iteration order of a value, when iterable: strings yield their
characters as one-character strings, dicts yield their keys. -/
def pyIter : Value → Option (List Value)
  | .vstr s => some (s.toList.map (fun c => .vstr (String.mk [c])))
  | .vlist xs => some xs
  | .vtuple xs => some xs
  | .vset xs => some xs
  | .vdict kvs => some (kvs.map (fun kv => .vstr kv.1))
  | _ => none

mutual

/-- Hashability: lists, sets and dicts are unhashable; a tuple is hashable
when all its elements are. -/
def isHashable : Value → Bool
  | .vlist _ => false
  | .vset _ => false
  | .vdict _ => false
  | .vtuple xs => allHashable xs
  | _ => true

def allHashable : List Value → Bool
  | [] => true
  | x :: xs => isHashable x && allHashable xs

end

/-- `==` between an integer and a float. -/
def pyEqIntFloat (n : ℤ) : PyFloat → Bool
  | .finite q => (n : ℚ) == q
  | _ => false

/-- `==` between floats: `nan` is unequal to everything, including itself. -/
def pyEqFloat : PyFloat → PyFloat → Bool
  | .finite q, .finite r => q == r
  | .inf, .inf => true
  | .neginf, .neginf => true
  | _, _ => false

mutual

/-- Python `==` restricted to hashable values (the only place the embedding
needs it is `set` deduplication): numeric cross-type equality between
`bool`/`int`/`float` (`nan` equal to nothing), string equality, tuples
elementwise; distinct shapes are unequal. -/
def pyEqH : Value → Value → Bool
  | .vnone, .vnone => true
  | .vbool a, .vbool b => a == b
  | .vbool a, .vint m => (if a then (1 : ℤ) else 0) == m
  | .vint n, .vbool b => n == (if b then (1 : ℤ) else 0)
  | .vint n, .vint m => n == m
  | .vbool a, .vfloat f => pyEqIntFloat (if a then 1 else 0) f
  | .vfloat f, .vbool a => pyEqIntFloat (if a then 1 else 0) f
  | .vint n, .vfloat f => pyEqIntFloat n f
  | .vfloat f, .vint n => pyEqIntFloat n f
  | .vfloat f, .vfloat g => pyEqFloat f g
  | .vstr a, .vstr b => a == b
  | .vtuple a, .vtuple b => pyEqHList a b
  | _, _ => false

def pyEqHList : List Value → List Value → Bool
  | [], [] => true
  | x :: xs, y :: ys => pyEqH x y && pyEqHList xs ys
  | _, _ => false

end

/-- Set insertion: a colliding element keeps the first occurrence, as in
CPython. -/
def insertDedup (acc : List Value) (x : Value) : List Value :=
  if acc.any (fun y => pyEqH y x) then acc else acc ++ [x]

/-- `list(value)`. -/
def pyListC (v : Value) : Option Value :=
  (pyIter v).map .vlist

/-- `tuple(value)`. -/
def pyTupleC (v : Value) : Option Value :=
  (pyIter v).map .vtuple

/-- `set(value)`: iterable of hashable elements, deduplicated. -/
def pySetC (v : Value) : Option Value :=
  match pyIter v with
  | none => none
  | some xs =>
      if allHashable xs then some (.vset (xs.foldl insertDedup []))
      else none

/-- A key-value pair acceptable to `dict(iterable)` in the embedded universe
(string keys only, matching the schema validator's universe). -/
def pyPair : Value → Option (String × Value)
  | .vtuple [.vstr k, v] => some (k, v)
  | .vlist [.vstr k, v] => some (k, v)
  | _ => none

/-- Dict insertion: a repeated key overwrites in place, keeping first
position, as in CPython. -/
def dictInsert (acc : List (String × Value)) (kv : String × Value) :
    List (String × Value) :=
  if acc.any (fun p => p.1 == kv.1) then
    acc.map (fun p => if p.1 == kv.1 then kv else p)
  else acc ++ [kv]

/-- `dict(value)`: a mapping is copied; otherwise an iterable of key-value
pairs, later pairs overwriting earlier keys. -/
def pyDictC (v : Value) : Option Value :=
  match v with
  | .vdict kvs => some (.vdict kvs)
  | _ =>
      match pyIter v with
      | none => none
      | some xs =>
          match xs.mapM pyPair with
          | none => none
          | some ps => some (.vdict (ps.foldl dictInsert []))

/-- The `target_type(value)` fallback of `_try_convert` for non-primitive
targets (`NoneType(value)` raises `TypeError`, hence `none`). -/
def pyConstruct (v : Value) : PyType → Option Value
  | .tList => pyListC v
  | .tTuple => pyTupleC v
  | .tSet => pySetC v
  | .tDict => pyDictC v
  | _ => none

/-! ## `ValidatorFactory.validate_type` and `_try_convert`
(`validators/factory.py`) -/

/-- `ValidatorFactory._try_convert`: `int`/`bool`/`float`/`str` targets go
through the safe coercers (`bool` and `str` coercion never fail); other
targets attempt direct construction unless the value is already an instance;
any raised fault is caught to `None`. -/
def tryConvert (v : Value) : PyType → Option Value
  | .tInt => (safeIntConvert v).map .vint
  | .tBool => some (.vbool (safeBoolConvert v))
  | .tFloat => (safeFloatConvert v).map .vfloat
  | .tStr => some (.vstr (safeStrConvert v))
  | t => if isInstance v t then none else pyConstruct v t

/-- The conversion loop of `validate_type`: accepted types are tried in
declaration order, `NoneType` targets skipped, and the first successful
conversion wins. -/
def firstConvert (v : Value) : List PyType → Option Value
  | [] => none
  | t :: ts =>
      if t = .tNone then firstConvert v ts
      else
        match tryConvert v t with
        | some c => some c
        | none => firstConvert v ts

/-- `", ".join` of type names. -/
def joinComma : List String → String
  | [] => ""
  | [x] => x
  | x :: xs => x ++ ", " ++ joinComma xs

def typeNames (ts : List PyType) : String :=
  joinComma (ts.map PyType.name)

/-- A failed result carrying a single `WRONG_TYPE` violation and no converted
value. -/
def wrongTypeResult (path expected found : String) : ValidationResult :=
  ⟨false, [⟨path, expected, found, .wrongType⟩], .vnone⟩

/-- `ValidatorFactory.validate_type` over the normalized list of accepted
types: `None` accepted only when `NoneType` is listed; an instance of any
accepted type passes unchanged; otherwise, with `convert`, the first
successful coercion in declaration order wins; otherwise a `WRONG_TYPE`
violation. -/
def validateType (v : Value) (types : List PyType) (path : String)
    (convert : Bool) : ValidationResult :=
  if v.isNone then
    if types.contains .tNone then ⟨true, [], .vnone⟩
    else wrongTypeResult path (typeNames types) "None"
  else if types.any (isInstance v) then ⟨true, [], v⟩
  else if convert then
    match firstConvert v types with
    | some c => ⟨true, [], c⟩
    | none => wrongTypeResult path (typeNames types) v.typeName
  else wrongTypeResult path (typeNames types) v.typeName

/-! ## Schemas and the recursive validator
(`validators/factory.py`, `forge/type_forge.py`)

A schema in the source is an arbitrary Python object inspected at runtime:
a `dict` mapping string keys to schemas, a `tuple` (of types, union-style,
or falling into the sequence branch otherwise), a `list` of schemas, a bare
type, or anything else — the last is represented by `Schema.sother`, which
carries the offending object's type name for the raised `TypeError`. -/

inductive Schema
  | sty (t : PyType)
  | stup (ss : List Schema)
  | slist (ss : List Schema)
  | sdict (fields : List (String × Schema))
  | sother (typename : String)

/-- `all(isinstance(t, type) for t in schema)` on a tuple schema: the list of
type leaves when every element is a bare type, `none` otherwise. -/
def Schema.asTypes : List Schema → Option (List PyType)
  | [] => some []
  | .sty t :: ss => (Schema.asTypes ss).map (t :: ·)
  | _ => none

/-- `" | ".join` of type names. -/
def joinBar : List String → String
  | [] => ""
  | [x] => x
  | x :: xs => x ++ " | " ++ joinBar xs

/-- The sequence case of `_get_type_name`: `List[<name>]` when the first
element is a type, `List[Dict]` otherwise. -/
def seqElemName : List Schema → String
  | .sty t :: _ => "List[" ++ t.name ++ "]"
  | _ => "List[Dict]"

/-- `ValidatorFactory._get_type_name`: human-readable rendering of a schema
for the `expected` field of a missing-key violation. -/
def getTypeName : Schema → String
  | .sty t => t.name
  | .stup ss =>
      match Schema.asTypes ss with
      | some ts => joinBar (ts.map PyType.name)
      | none => seqElemName ss
  | .slist ss =>
      match ss with
      | [] => "List"
      | _ => seqElemName ss
  | .sdict _ => "Dict[str]"
  | .sother tn => tn

/-- First value stored under a key (`key in d` / `d[key]`); real Python
dictionaries cannot carry duplicate keys, so first-match is exact. -/
def lookupKV (kvs : List (String × Value)) (key : String) : Option Value :=
  match kvs with
  | [] => none
  | kv :: rest => if kv.1 = key then some kv.2 else lookupKV rest key

/-- The missing-key violation `validate_dict` emits for an absent schema
key. -/
def missingKeyViolation (path : String) (field : String × Schema) : TypeViolation :=
  ⟨path ++ "." ++ field.1, getTypeName field.2, "missing", .missingKey⟩

/-- The `SCHEMA_MISMATCH` result of `validate_recursive`'s fallthrough
branch (reachable exactly by the empty-list schema). -/
def schemaMismatchResult (path : String) (typename : String) : ValidationResult :=
  ⟨false, [⟨path, "valid schema", "invalid schema: " ++ typename, .schemaMismatch⟩], .vnone⟩

/-- The `TypeError` message raised for a schema that is not a dict, list,
tuple or type. -/
def invalidSchemaMessage (typename : String) : String :=
  "Invalid schema type: " ++ typename ++ ". Expected dict, list, tuple of types, or type."

/-- Assemble the sequence branch's result: validity and violations from the
element loop; the converted value is the rebuilt list when valid, and the
never-updated initial empty list when not. -/
def seqAssemble (r : Bool × List TypeViolation × List Value) : ValidationResult :=
  ⟨r.1, r.2.1, .vlist (if r.1 then r.2.2 else [])⟩

mutual

/-- `ValidatorFactory.validate_recursive`: dispatch over the runtime shape of
the schema.  A non-(dict/list/tuple/type) schema raises `TypeError`
(modelled as `Except.error`); a tuple of types delegates to `validate_type`;
a dict schema requires a dict value and delegates to `validate_dict` with
its default `require_all_keys=True`; a non-empty list (or a tuple that is
not all types) validates each element against the first element schema; a
bare type delegates to `validate_type`; the remaining shape — the empty
list — falls through to a `SCHEMA_MISMATCH` result. -/
def validateRecursive (v : Value) (schema : Schema) (path : String)
    (convert : Bool) : Except String ValidationResult :=
  match schema with
  | .sother tn => .error (invalidSchemaMessage tn)
  | .stup ss =>
      match Schema.asTypes ss with
      | some ts => .ok (validateType v ts path convert)
      | none =>
          match ss with
          | [] => .ok (validateType v [] path convert)
          | s0 :: _ =>
              match v with
              | .vlist items => (validateSeqItems items s0 path 0 convert).map seqAssemble
              | .vtuple items => (validateSeqItems items s0 path 0 convert).map seqAssemble
              | _ => .ok (wrongTypeResult path "list or tuple" v.typeName)
  | .sdict fields =>
      match v with
      | .vdict kvs => validateDict (.vdict kvs) fields path convert true
      | _ => .ok (wrongTypeResult path "dict" v.typeName)
  | .slist ss =>
      match ss with
      | [] => .ok (schemaMismatchResult path "list")
      | s0 :: _ =>
          match v with
          | .vlist items => (validateSeqItems items s0 path 0 convert).map seqAssemble
          | .vtuple items => (validateSeqItems items s0 path 0 convert).map seqAssemble
          | _ => .ok (wrongTypeResult path "list or tuple" v.typeName)
  | .sty t => .ok (validateType v [t] path convert)
termination_by (sizeOf schema, 0)

/-- `ValidatorFactory.validate_dict`: a non-dict value fails with
`WRONG_TYPE`; otherwise, with `require_all_keys`, one `MISSING_KEY`
violation per absent schema key (validity dropped when any is missing),
then every present key is validated recursively and merged; the converted
value is always the rebuilt dictionary, converted entries where conversion
succeeded and originals elsewhere. -/
def validateDict (v : Value) (fields : List (String × Schema)) (path : String)
    (convert : Bool) (requireAllKeys : Bool) : Except String ValidationResult :=
  match v with
  | .vdict kvs =>
      let missing := fields.filter (fun f => (lookupKV kvs f.1).isNone)
      let baseValid := !requireAllKeys || missing.isEmpty
      let baseVios := if requireAllKeys then missing.map (missingKeyViolation path) else []
      (validateDictFields kvs fields path convert).map
        (fun r => ⟨baseValid && r.1, baseVios ++ r.2.1, .vdict r.2.2⟩)
  | _ => .ok (wrongTypeResult path "dict" v.typeName)
termination_by (sizeOf fields, 1)

/-- The present-key loop of `validate_dict`: recurse on each schema key found
in the value, merging validity and violations in schema order and rebuilding
the output entries (converted where valid and non-`None`, original
otherwise). -/
def validateDictFields (kvs : List (String × Value)) (fields : List (String × Schema))
    (path : String) (convert : Bool) :
    Except String (Bool × List TypeViolation × List (String × Value)) :=
  match fields with
  | [] => .ok (true, [], [])
  | (key, sch) :: rest =>
      match lookupKV kvs key with
      | none => validateDictFields kvs rest path convert
      | some kv => do
          let r ← validateRecursive kv sch (path ++ "." ++ key) convert
          let entry := (key, if r.valid && !r.convertedValue.isNone then r.convertedValue else kv)
          let rec' ← validateDictFields kvs rest path convert
          .ok (r.valid && rec'.1, r.violations ++ rec'.2.1, entry :: rec'.2.2)
termination_by (sizeOf fields, 0)

/-- The element loop of the sequence branch: validate each element against
the single element schema at path `parent[i]`, ANDing validity, appending
violations in index order, and rebuilding the element list (converted where
valid and non-`None`, original otherwise). -/
def validateSeqItems (items : List Value) (elemSchema : Schema) (path : String)
    (idx : ℕ) (convert : Bool) :
    Except String (Bool × List TypeViolation × List Value) :=
  match items with
  | [] => .ok (true, [], [])
  | item :: rest => do
      let r ← validateRecursive item elemSchema (path ++ "[" ++ toString idx ++ "]") convert
      let rec' ← validateSeqItems rest elemSchema path (idx + 1) convert
      .ok (r.valid && rec'.1, r.violations ++ rec'.2.1,
        (if r.valid && !r.convertedValue.isNone then r.convertedValue else item) :: rec'.2.2)
termination_by (sizeOf elemSchema, items.length)

end

/-- `TypeForge.validate_dict_schema` (`forge/type_forge.py`): the separate
entry point that forwards `require_all_keys` explicitly, fixing the root
path at `"$"`. -/
def validateDictSchema (data : Value) (fields : List (String × Schema))
    (convert : Bool) (requireAllKeys : Bool) : Except String ValidationResult :=
  validateDict data fields "$" convert requireAllKeys

/-! ## The conversion-result monad (`typing/conversion.py`)

`ConversionResult.__init__` assigns its three arguments unchecked; the
`value` field defaults to `None` and the `error` field to `None`.  A Python
function argument that may raise is modelled as returning
`Except String Value`, the error carrying `str(exception)`. -/

/-- `ConversionResult`: success flag, converted value (Python stores `None`
for "absent" — carried as `Value.vnone`), optional error message.  The
constructor performs no validation, mirroring `__init__`. -/
structure ConversionResult where
  success : Bool
  value : Value := .vnone
  error : Option String := none

/-- `ConversionResult.create_success`. -/
def ConversionResult.createSuccess (v : Value) : ConversionResult :=
  ⟨true, v, none⟩

/-- `ConversionResult.failure`. -/
def ConversionResult.failure (e : String) : ConversionResult :=
  ⟨false, .vnone, some e⟩

/-- `ConversionResult.from_try`: capture a raised fault into `failure`. -/
def ConversionResult.fromTry (f : Except String Value) : ConversionResult :=
  match f with
  | .ok v => .createSuccess v
  | .error e => .failure e

/-- `ConversionResult.map`: on failure return self unchanged; on success
with a `None` value produce the guard failure; otherwise apply the
transform, capturing a raised fault as a `Transformation error`. -/
def ConversionResult.map (r : ConversionResult) (f : Value → Except String Value) :
    ConversionResult :=
  if !r.success then r
  else if r.value.isNone then ⟨false, .vnone, some "Value is None despite successful status"⟩
  else
    match f r.value with
    | .ok v => .createSuccess v
    | .error e => .failure ("Transformation error: " ++ e)

/-! ## The type-relationship analyzer (`typing/analysis.py`)

The membership tuples come from `typing/aliases.py`:
`PrimitiveTypes = (int, float, bool, str, bytes)`,
`NumericTypes = (int, float, complex)`,
`CollectionTypes = (list, tuple, set, frozenset, dict)`;
`bytes`, `complex` and `frozenset` are outside the embedded universe and are
dropped from the corresponding lists.  Python's `in` on a tuple of types
compares with `==`, under which `bool` is not `int`. -/

def PrimitiveTys : List PyType :=
  [.tInt, .tFloat, .tBool, .tStr]

def NumericTys : List PyType :=
  [.tInt, .tFloat]

def CollectionTys : List PyType :=
  [.tList, .tTuple, .tSet, .tDict]

/-- `TypeCompatibility` (`typing/definitions.py`). -/
inductive TypeCompatibility
  | identical
  | subtype
  | supertype
  | convertible
  | structurallyCompatible
  | protocolCompatible
  | containerCompatible
  | implicitConvertible
  | incompatible
deriving DecidableEq, BEq, Repr

/-- `issubclass` on the embedded descriptors: reflexive, plus
`bool ⊆ int`. -/
def pyIssubclass (s t : PyType) : Bool :=
  s == t || (s == .tBool && t == .tInt)

/-- `TypeRelationshipAnalyzer.get_relationship`: identical, subtype,
supertype; then, when both types are primitive: numeric pair, string
target, or string source with numeric target; then the container pair
check (primitives that matched nothing fall through to it); otherwise
incompatible. -/
def getRelationship (source target : PyType) : TypeCompatibility :=
  if source == target then .identical
  else if pyIssubclass source target then .subtype
  else if pyIssubclass target source then .supertype
  else if PrimitiveTys.contains source && PrimitiveTys.contains target
      && NumericTys.contains source && NumericTys.contains target then .implicitConvertible
  else if PrimitiveTys.contains source && PrimitiveTys.contains target
      && target == .tStr then .convertible
  else if PrimitiveTys.contains source && PrimitiveTys.contains target
      && source == .tStr && NumericTys.contains target then .convertible
  else if CollectionTys.contains source && CollectionTys.contains target then
    .containerCompatible
  else .incompatible

/-- `TypeRelationshipAnalyzer.get_conversion_distance`: the fixed ordinal of
each classification, `float('inf')` modelled as `⊤`. -/
def getConversionDistance (source target : PyType) : WithTop ℕ :=
  match getRelationship source target with
  | .identical => 0
  | .subtype => 1
  | .supertype => 2
  | .implicitConvertible => 3
  | .convertible => 5
  | .containerCompatible => 7
  | .structurallyCompatible => 10
  | .protocolCompatible => 15
  | .incompatible => ⊤

/-! ## Spec-side definitions

Written from the specification's wording, to be compared with the
source-translated functions above. -/

/-- The string rule of the boolean-coercion table as the specification
states it: a case-insensitive match against the true/false token tables,
any other string by its non-emptiness. -/
def specBoolClaimedString (s : String) : Bool :=
  if trueTokens.contains (pyLower s) then true
  else if falseTokens.contains (pyLower s) then false
  else !(s.toList.isEmpty)

/-- The boolean-coercion table with the one correction the code forces:
strings are lowercased and stripped of surrounding whitespace before the
table lookup, and an untabled string maps to non-emptiness of that stripped
form.  All other rows are the specification's: bool passthrough, numeric
zero/non-zero truthiness, lists always true, tuples/sets/mappings true iff
non-empty, `None` false. -/
def specBoolAmended : Value → Bool
  | .vnone => false
  | .vbool b => b
  | .vint n => n != 0
  | .vfloat (.finite q) => q != 0
  | .vfloat _ => true
  | .vstr s =>
      if trueTokens.contains (pyStrip (pyLower s)) then true
      else if falseTokens.contains (pyStrip (pyLower s)) then false
      else pyStrip (pyLower s) != ""
  | .vlist _ => true
  | .vtuple xs => !xs.isEmpty
  | .vset xs => !xs.isEmpty
  | .vdict kvs => !kvs.isEmpty

/-- The classification cascade exactly as the specification words it, as a
first-match sequence with no primitivity guard on the two convertible
cases. -/
def specClassifyClaimed (source target : PyType) : TypeCompatibility :=
  if source == target then .identical
  else if pyIssubclass source target then .subtype
  else if pyIssubclass target source then .supertype
  else if NumericTys.contains source && NumericTys.contains target then .implicitConvertible
  else if target == .tStr then .convertible
  else if source == .tStr && NumericTys.contains target then .convertible
  else if CollectionTys.contains source && CollectionTys.contains target then
    .containerCompatible
  else .incompatible

/-- The classification cascade with the correction the code forces: the
numeric-pair and the two string-convertibility cases additionally require
both types to be primitive. -/
def specClassifyAmended (source target : PyType) : TypeCompatibility :=
  if source == target then .identical
  else if pyIssubclass source target then .subtype
  else if pyIssubclass target source then .supertype
  else if PrimitiveTys.contains source && PrimitiveTys.contains target
      && NumericTys.contains source && NumericTys.contains target then .implicitConvertible
  else if PrimitiveTys.contains source && PrimitiveTys.contains target
      && target == .tStr then .convertible
  else if PrimitiveTys.contains source && PrimitiveTys.contains target
      && source == .tStr && NumericTys.contains target then .convertible
  else if CollectionTys.contains source && CollectionTys.contains target then
    .containerCompatible
  else .incompatible

/-- The fixed distance ordinal per classification, as the specification
enumerates it. -/
def specDistTable : TypeCompatibility → WithTop ℕ
  | .identical => 0
  | .subtype => 1
  | .supertype => 2
  | .implicitConvertible => 3
  | .convertible => 5
  | .containerCompatible => 7
  | .structurallyCompatible => 10
  | .protocolCompatible => 15
  | .incompatible => ⊤

/-! ## Theorems -/

/-- C1 (counterexample).  For the value `5` and the accepted types
`(str, bool)`, both coercions succeed and the bool target has strictly
lower conversion distance (2 versus 5), yet `validate_type` converts to the
first-listed `str`; reordering the accepted types to `(bool, str)` changes
the converted result.  The distance metric is not consulted and the result
is not invariant under reordering. -/
theorem c1_conversion_ignores_distance :
    (tryConvert (.vint 5) .tStr).isSome = true
    ∧ (tryConvert (.vint 5) .tBool).isSome = true
    ∧ getConversionDistance .tInt .tBool < getConversionDistance .tInt .tStr
    ∧ validateType (.vint 5) [.tStr, .tBool] "$" true = ⟨true, [], .vstr "5"⟩
    ∧ validateType (.vint 5) [.tBool, .tStr] "$" true = ⟨true, [], .vbool true⟩ := by
  refine ⟨rfl, rfl, ?_, rfl, rfl⟩
  decide

/-- C1 (amended).  In union-of-types validation with conversion enabled,
when the value is an instance of no accepted type, the conversion target is
the first type in declaration order whose coercion succeeds — whatever the
later types (and their distances) would have produced, so the
conversion-distance metric plays no role. -/
theorem c1_first_successful_conversion_wins
    (v : Value) (path : String) (t1 : PyType) (rest : List PyType) (c1 : Value) :
    v.isNone = false → (t1 :: rest).any (isInstance v) = false →
    t1 ≠ .tNone → tryConvert v t1 = some c1 →
    validateType v (t1 :: rest) path true = ⟨true, [], c1⟩ := by
  intro hv hall hn hc1
  unfold validateType firstConvert
  simp [hv, hall, hn, hc1]

/-- C1 (witness): the amended theorem applied at value `5` against
`(str, bool)`. -/
theorem c1_first_successful_conversion_wins_witness :
    validateType (.vint 5) [.tStr, .tBool] "$" true = ⟨true, [], .vstr "5"⟩ :=
  c1_first_successful_conversion_wins (.vint 5) "$" .tStr [.tBool] (.vstr "5")
    rfl rfl (by decide) rfl

/-- C3 (counterexample).  The empty-list schema is malformed (it is none of
the variants: single type, tuple of types, dict schema, non-empty sequence
schema), yet `validate_recursive` does not raise — it returns a
`ValidationResult` carrying a `SCHEMA_MISMATCH` violation. -/
theorem c3_empty_list_schema_returns_result :
    validateRecursive (.vint 1) (.slist []) "$" false
      = .ok ⟨false, [⟨"$", "valid schema", "invalid schema: list", .schemaMismatch⟩], .vnone⟩ := by
  simp [validateRecursive, schemaMismatchResult]

/-- C3 (amended).  A schema that is not a dict, list, tuple or type raises
`TypeError` immediately; but the one remaining malformed shape — the empty
list — instead returns a result carrying a `SCHEMA_MISMATCH` violation. -/
theorem c3_malformed_schema_behavior :
    (∀ (v : Value) (path : String) (convert : Bool) (tn : String),
      validateRecursive v (.sother tn) path convert = .error (invalidSchemaMessage tn))
    ∧ validateRecursive (.vbool true) (.slist []) "$" true
      = .ok (schemaMismatchResult "$" "list") := by
  constructor
  · intro v path convert tn
    simp [validateRecursive]
  · simp [validateRecursive]

/-- C4 (counterexample).  The `ConversionResult` constructor performs no
validation: constructing with `success=True`, `value=None` and an error
message yields an instance that is marked successful yet has no value and a
present error. -/
theorem c4_constructor_enforces_nothing :
    (ConversionResult.mk true .vnone (some "Conversion error")).success = true
    ∧ (ConversionResult.mk true .vnone (some "Conversion error")).value.isNone = true
    ∧ (ConversionResult.mk true .vnone (some "Conversion error")).error.isSome = true :=
  ⟨rfl, rfl, rfl⟩

/-- C4 (amended).  The factory constructors maintain the success/failure
shape — `create_success` yields success with the given value and no error,
`failure` yields non-success with no value and the given error, and
`from_try` lands exactly on one of those two — but the invariant is
maintained by the factories only, not enforced by the raw constructor. -/
theorem c4_factory_constructors_preserve_shape :
    (∀ v : Value, (ConversionResult.createSuccess v).success = true
      ∧ (ConversionResult.createSuccess v).error = none
      ∧ (ConversionResult.createSuccess v).value = v)
    ∧ (∀ e : String, (ConversionResult.failure e).success = false
      ∧ (ConversionResult.failure e).value.isNone = true
      ∧ (ConversionResult.failure e).error = some e)
    ∧ (∀ v : Value, ConversionResult.fromTry (.ok v) = ConversionResult.createSuccess v)
    ∧ (∀ e : String, ConversionResult.fromTry (.error e) = ConversionResult.failure e) :=
  ⟨fun _ => ⟨rfl, rfl, rfl⟩, fun _ => ⟨rfl, rfl, rfl⟩, fun _ => rfl, fun _ => rfl⟩

/-- C6 (counterexample).  Per the claim's table, the whitespace-only string
`" "` is in neither token table (case-insensitively) and is non-empty, so it
should coerce to true; the code strips it to the empty string first and
returns false. -/
theorem c6_whitespace_string_coerces_to_false :
    specBoolClaimedString " " = true ∧ safeBoolConvert (.vstr " ") = false := by
  constructor <;> decide

/-- C6 (amended).  The boolean coercer implements the enumerated table with
strings first lowercased and stripped of surrounding whitespace: tabled
tokens map to their truth value, any other string maps to non-emptiness of
its stripped lowercased form (so whitespace-only strings map to false);
booleans pass through, numbers use zero/non-zero truthiness, every list maps
to true, tuples/sets/mappings to non-emptiness, `None` to false — and the
function is total, so it never raises. -/
theorem c6_bool_coercion_table :
    ∀ v : Value, safeBoolConvert v = specBoolAmended v := by
  intro v
  cases v
  case vfloat f => cases f <;> rfl
  all_goals rfl

/-- C7 (counterexample).  The map composition law fails at `x = None`:
`create_success(None).map(id).map(id)` is a failure (the first `map` trips
the internal `None` guard), while `create_success(id(id(None)))` is a
success. -/
theorem c7_map_law_fails_on_none :
    (((ConversionResult.createSuccess .vnone).map (fun v => .ok v)).map
        (fun v => .ok v)).success = false
    ∧ (ConversionResult.createSuccess
        ((fun (v : Value) => v) ((fun (v : Value) => v) .vnone))).success = true :=
  ⟨rfl, rfl⟩

/-- C7 (amended).  For non-raising transforms, the composition law
`create_success(x).map(f).map(g) = create_success(g(f(x)))` holds whenever
`x` and `f(x)` are not `None` (the internal `None` guard otherwise
intervenes); `map` is unconditionally a no-op on failures, preserving the
error. -/
theorem c7_map_laws :
    (∀ (x : Value) (f g : Value → Value),
      x.isNone = false → (f x).isNone = false →
      ((ConversionResult.createSuccess x).map (fun v => .ok (f v))).map
          (fun v => .ok (g v))
        = ConversionResult.createSuccess (g (f x)))
    ∧ (∀ (e : String) (f : Value → Except String Value),
      (ConversionResult.failure e).map f = ConversionResult.failure e) := by
  constructor
  · intro x f g hx hfx
    simp [ConversionResult.map, ConversionResult.createSuccess, hx, hfx]
  · intro e f
    rfl

/-- C7 (witness): the amended composition law applied at `x = 1` with
identity transforms, and the failure law at a concrete error. -/
theorem c7_map_laws_witness :
    ((ConversionResult.createSuccess (.vint 1)).map (fun v => .ok v)).map
        (fun v => .ok v)
      = ConversionResult.createSuccess (.vint 1) :=
  c7_map_laws.1 (.vint 1) (fun v => v) (fun v => v) rfl rfl

/-- C8 (counterexample).  The claim's cascade, read as stated, classifies
`(list, str)` as `Convertible` ("target is string"); the code guards the
convertibility cases by both types being primitive, so `(list, str)` is
`Incompatible` with infinite distance. -/
theorem c8_list_to_str_is_incompatible :
    specClassifyClaimed .tList .tStr = .convertible
    ∧ getRelationship .tList .tStr = .incompatible
    ∧ getConversionDistance .tList .tStr = ⊤ := by
  refine ⟨by decide, by decide, by decide⟩

/-- C8 (amended).  The classifier returns the first matching case of the
claim's cascade with one correction — the numeric-pair and string
convertibility cases additionally require both types primitive — and the
derived distance maps every classification to the fixed ordinals
0, 1, 2, 3, 5, 7, 10, 15, with infinity (`⊤`) for `Incompatible`. -/
theorem c8_classifier_and_distance :
    ∀ s t : PyType,
      getRelationship s t = specClassifyAmended s t
      ∧ getConversionDistance s t = specDistTable (getRelationship s t) := by
  decide

/-- Every result `validate_type` produces is either valid or a
single-violation `WRONG_TYPE` failure with no converted value. -/
theorem validateType_shape (v : Value) (types : List PyType) (path : String)
    (convert : Bool) :
    (validateType v types path convert).valid = true
    ∨ validateType v types path convert
        = wrongTypeResult path (typeNames types) "None"
    ∨ validateType v types path convert
        = wrongTypeResult path (typeNames types) v.typeName := by
  unfold validateType
  split_ifs
  · left; rfl
  · right; left; rfl
  · left; rfl
  · split
    · left; rfl
    · right; right; rfl
  · right; right; rfl

/-- C2 (counterexample).  A failed dictionary validation retains a non-`None`
converted value: validating `{"name": "John"}` against
`{"name": str, "age": int}` yields `valid = False` together with the rebuilt
dictionary as `converted_value`, violating the claimed invariant. -/
theorem c2_invalid_dict_result_keeps_converted_value :
    validateDict (.vdict [("name", .vstr "John")])
        [("name", .sty .tStr), ("age", .sty .tInt)] "$" false true
      = .ok ⟨false, [⟨"$.age", "int", "missing", .missingKey⟩],
          .vdict [("name", .vstr "John")]⟩
    ∧ (Value.vdict [("name", .vstr "John")]).isNone = false := by
  constructor
  · simp [validateDict, validateDictFields, validateRecursive, lookupKV,
      missingKeyViolation, getTypeName, PyType.name, validateType, Value.isNone,
      isInstance, Except.map, Except.instMonad, Except.bind, Except.pure]
  · rfl

/-- C2 (amended).  The invariant "invalid implies no converted value" holds
for the type-leaf validator `validate_type`, whose failures always carry
`converted_value = None`; it does not hold for the container validators,
which keep the partially rebuilt container on failure, and `merge`
preserves the left operand's converted value regardless of validity. -/
theorem c2_validate_type_failures_carry_no_value :
    (∀ (v : Value) (types : List PyType) (path : String) (convert : Bool),
      (validateType v types path convert).valid = false →
      (validateType v types path convert).convertedValue = .vnone)
    ∧ (∀ a b : ValidationResult, (a.merge b).convertedValue = a.convertedValue) := by
  constructor
  · intro v types path convert h
    rcases validateType_shape v types path convert with h1 | h1 | h1
    · rw [h1] at h
      cases h
    · rw [h1]
      rfl
    · rw [h1]
      rfl
  · intro a b
    rfl

/-- C2 (witness): the amended invariant applied to the failed validation of
`1` against `str`. -/
theorem c2_validate_type_failures_carry_no_value_witness :
    (validateType (.vint 1) [.tStr] "$" false).convertedValue = .vnone :=
  c2_validate_type_failures_carry_no_value.1 (.vint 1) [.tStr] "$" false rfl

/-- `_try_convert` to `bool` always succeeds, producing the boolean
coercion. -/
theorem tryConvert_bool (v : Value) :
    tryConvert v .tBool = some (.vbool (safeBoolConvert v)) :=
  rfl

/-- If `bool` is among the accepted types, the conversion loop finds a
successful target. -/
theorem firstConvert_isSome_of_bool (v : Value) :
    ∀ types : List PyType, PyType.tBool ∈ types →
      (firstConvert v types).isSome = true := by
  intro types
  induction types with
  | nil => intro h; cases h
  | cons t ts ih =>
      intro h
      unfold firstConvert
      by_cases hn : t = .tNone
      · subst hn
        have hts : PyType.tBool ∈ ts := by
          rcases List.mem_cons.mp h with he | hm
          · exact absurd he (by decide)
          · exact hm
        simpa using ih hts
      · simp only [if_neg hn]
        cases hc : tryConvert v t with
        | some c => simp
        | none =>
            have htb : t ≠ .tBool := by
              intro he
              rw [he, tryConvert_bool] at hc
              cases hc
            have hts : PyType.tBool ∈ ts := by
              rcases List.mem_cons.mp h with he | hm
              · exact absurd he.symm htb
              · exact hm
            simpa using ih hts

/-- An instance of `bool` is a boolean value. -/
theorem isBool_of_isInstance_tBool (v : Value) :
    isInstance v .tBool = true → v.isBool = true := by
  cases v <;> simp [isInstance, Value.isBool]

/-- C9.  With conversion enabled, validating any non-`None` value against
`bool` always succeeds and yields a boolean converted value, because the
boolean coercer is total; consequently any accepted-type union containing
`bool` accepts every non-`None` value when conversion is enabled. -/
theorem c9_bool_target_accepts_every_value :
    (∀ (v : Value) (types : List PyType) (path : String),
      v.isNone = false → PyType.tBool ∈ types →
      (validateType v types path true).valid = true)
    ∧ (∀ (v : Value) (path : String), v.isNone = false →
      (validateType v [.tBool] path true).valid = true
      ∧ (validateType v [.tBool] path true).convertedValue.isBool = true) := by
  constructor
  · intro v types path hv hb
    unfold validateType
    rw [hv]
    by_cases hi : types.any (isInstance v) = true
    · simp [hi]
    · cases hc : firstConvert v types with
      | some c => simp [hi, hc]
      | none =>
          have hs := firstConvert_isSome_of_bool v types hb
          rw [hc] at hs
          cases hs
  · intro v path hv
    unfold validateType
    rw [hv]
    by_cases hi : [PyType.tBool].any (isInstance v) = true
    · have hb : v.isBool = true := by
        apply isBool_of_isInstance_tBool
        simpa using hi
      simp [hi, hb]
    · have hfc : firstConvert v [.tBool] = some (.vbool (safeBoolConvert v)) := by
        unfold firstConvert
        simp [tryConvert_bool]
      simp [hi, hfc, Value.isBool]

/-- C9 (witness): the union part at the string `"maybe"` against
`(int, bool)`, and the bool-typed part at `nan`. -/
theorem c9_bool_target_accepts_every_value_witness :
    (validateType (.vstr "maybe") [.tInt, .tBool] "$" true).valid = true
    ∧ (validateType (.vfloat .nan) [.tBool] "$" true).convertedValue.isBool = true :=
  ⟨c9_bool_target_accepts_every_value.1 (.vstr "maybe") [.tInt, .tBool] "$" rfl (by simp),
   (c9_bool_target_accepts_every_value.2 (.vfloat .nan) "$" rfl).2⟩

/-- The dictionary arm of `validate_dict`, written out: the result maps the
present-key loop's outcome under the missing-key prefix. -/
theorem validateDict_vdict_eq (d : List (String × Value))
    (fields : List (String × Schema)) (path : String) (convert req : Bool) :
    validateDict (.vdict d) fields path convert req
      = (validateDictFields d fields path convert).map
          (fun r =>
            ⟨(!req || (fields.filter (fun f => (lookupKV d f.1).isNone)).isEmpty) && r.1,
              (if req then
                (fields.filter (fun f => (lookupKV d f.1).isNone)).map
                  (missingKeyViolation path)
              else []) ++ r.2.1,
              .vdict r.2.2⟩) := by
  unfold validateDict
  rfl

/-- C5.  Validating `{"name": "John"}` against `{"name": str, "age": int}`
yields exactly one violation — `MissingKey` at `$.age` — with overall
validity false; in general, with all keys required, every absent schema key
contributes its `MissingKey` violation at `parent.key` to the result
(processing never short-circuits) and any absent key forces the overall
result invalid. -/
theorem c5_missing_key_reporting :
    (validateDict (.vdict [("name", .vstr "John")])
        [("name", .sty .tStr), ("age", .sty .tInt)] "$" false true
      = .ok ⟨false, [⟨"$.age", "int", "missing", .missingKey⟩],
          .vdict [("name", .vstr "John")]⟩)
    ∧ (∀ (d : List (String × Value)) (fields : List (String × Schema))
        (path : String) (convert : Bool) (k : String) (sch : Schema)
        (r : ValidationResult),
        (k, sch) ∈ fields → lookupKV d k = none →
        validateDict (.vdict d) fields path convert true = .ok r →
        r.valid = false ∧ missingKeyViolation path (k, sch) ∈ r.violations) := by
  constructor
  · simp [validateDict, validateDictFields, validateRecursive, lookupKV,
      missingKeyViolation, getTypeName, PyType.name, validateType, Value.isNone,
      isInstance, Except.map, Except.instMonad, Except.bind, Except.pure]
  · intro d fields path convert k sch r hmem hlk hok
    rw [validateDict_vdict_eq] at hok
    cases hf : validateDictFields d fields path convert with
    | error e =>
        rw [hf] at hok
        cases hok
    | ok trip =>
        rw [hf] at hok
        simp only [Except.map, Except.ok.injEq] at hok
        subst hok
        have hmiss : (k, sch) ∈ fields.filter (fun f => (lookupKV d f.1).isNone) := by
          apply List.mem_filter.mpr
          exact ⟨hmem, by simp [hlk]⟩
        have hne : (fields.filter (fun f => (lookupKV d f.1).isNone)).isEmpty = false := by
          cases hemp : (fields.filter (fun f => (lookupKV d f.1).isNone)).isEmpty
          · rfl
          · rw [List.isEmpty_iff] at hemp
            rw [hemp] at hmiss
            cases hmiss
        constructor
        · simp [hne]
        · apply List.mem_append_left
          simp only [if_true]
          exact List.mem_map_of_mem (missingKeyViolation path) hmiss

/-- C5 (witness): the general part applied to the concrete example, via the
concrete equality of the first part. -/
theorem c5_missing_key_reporting_witness :
    (⟨false, [⟨"$.age", "int", "missing", .missingKey⟩],
        .vdict [("name", .vstr "John")]⟩ : ValidationResult).valid = false
    ∧ (missingKeyViolation "$" ("age", .sty .tInt))
        ∈ (⟨false, [⟨"$.age", "int", "missing", .missingKey⟩],
            .vdict [("name", .vstr "John")]⟩ : ValidationResult).violations :=
  c5_missing_key_reporting.2 [("name", .vstr "John")]
    [("name", .sty .tStr), ("age", .sty .tInt)] "$" false "age" (.sty .tInt) _
    (by simp) rfl c5_missing_key_reporting.1

/-- C10.  Every dict schema reached through `validate_recursive` is
validated with all keys required: the dict arm forwards to `validate_dict`
with `require_all_keys = True` (its default), so a nested dict with an
absent schema key is invalid even though no caller passed the flag; the
relaxed mode is reachable only through the separate `validate_dict_schema`
entry point, where the same data with `require_all_keys = False` passes. -/
theorem c10_recursive_dicts_require_all_keys :
    (∀ (d : List (String × Value)) (fields : List (String × Schema))
        (path : String) (convert : Bool),
      validateRecursive (.vdict d) (.sdict fields) path convert
        = validateDict (.vdict d) fields path convert true)
    ∧ (validateRecursive (.vdict [("user", .vdict [("name", .vstr "Ada")])])
        (.sdict [("user", .sdict [("name", .sty .tStr), ("age", .sty .tInt)])])
        "$" false
      = .ok ⟨false, [⟨"$.user.age", "int", "missing", .missingKey⟩],
          .vdict [("user", .vdict [("name", .vstr "Ada")])]⟩)
    ∧ (validateDictSchema (.vdict [("name", .vstr "Ada")])
        [("name", .sty .tStr), ("age", .sty .tInt)] false false
      = .ok ⟨true, [], .vdict [("name", .vstr "Ada")]⟩) := by
  refine ⟨?_, ?_, ?_⟩
  · intro d fields path convert
    simp [validateRecursive]
  · have inner : validateRecursive (.vdict [("name", .vstr "Ada")])
        (.sdict [("name", .sty .tStr), ("age", .sty .tInt)]) "$.user" false
        = .ok ⟨false, [⟨"$.user.age", "int", "missing", .missingKey⟩],
            .vdict [("name", .vstr "Ada")]⟩ := by
      simp [validateRecursive, validateDict, validateDictFields, lookupKV,
        missingKeyViolation, getTypeName, PyType.name, validateType, Value.isNone,
        isInstance, Except.map, Except.instMonad, Except.bind, Except.pure]
    have step : validateDictFields [("user", .vdict [("name", .vstr "Ada")])]
        [("user", .sdict [("name", .sty .tStr), ("age", .sty .tInt)])] "$" false
        = .ok (false, [⟨"$.user.age", "int", "missing", .missingKey⟩],
            [("user", .vdict [("name", .vstr "Ada")])]) := by
      rw [validateDictFields]
      simp only [lookupKV, reduceIte]
      rw [show ("$" ++ "." ++ "user" : String) = "$.user" from rfl, inner]
      rw [validateDictFields]
      simp [Except.instMonad, Except.bind, Except.pure, Value.isNone]
    rw [show validateRecursive (.vdict [("user", .vdict [("name", .vstr "Ada")])])
        (.sdict [("user", .sdict [("name", .sty .tStr), ("age", .sty .tInt)])]) "$" false
        = validateDict (.vdict [("user", .vdict [("name", .vstr "Ada")])])
            [("user", .sdict [("name", .sty .tStr), ("age", .sty .tInt)])] "$" false true
      from by simp [validateRecursive]]
    rw [validateDict_vdict_eq, step]
    simp [lookupKV, missingKeyViolation, Except.map]
  · simp [validateDictSchema, validateDict, validateDictFields, validateRecursive,
      lookupKV, validateType, Value.isNone, isInstance,
      Except.map, Except.instMonad, Except.bind, Except.pure]

end TypeForge
